import Mathlib

/-!
Shallow embedding of the SolrCloud reconciliation controller
(controllers/solrcloud_controller.go) and verification of its
natural-language specification.

External collaborators that the spec explicitly excludes (resource
generation, field copy-and-diff helpers, the pod-update safety policy)
are modelled as inputs to the embedded functions.  Calls against the
orchestration API are modelled by explicit result inputs (lookup
results, whether a create or update call succeeds), and the side
effects of a code path are recorded as an explicit list of actions.
-/

/-- One observable side effect (an orchestration-API write) issued by a
reconciliation pass, in program order. -/
inductive Act where
  | addFinalizer (finalizer : String)
  | removeFinalizer (finalizer : String)
  | updateCloud
  | deletePVC (name : String)
  | deleteSecret (name : String)
  | updateSecret (name : String)
  | updateCertificate (name : String)
  | deletePod (name : String) (uid : String)
  | createZkCluster
  | updateZkCluster
  | updateStatus
deriving DecidableEq, Repr

/-- The pair returned by Reconcile: the requeue delay (nanoseconds, as Go
time.Duration) of the ctrl.Result, and whether the error return is non-nil. -/
structure GoResult where
  requeueAfterNanos : Int
  hasError : Bool
deriving DecidableEq, Repr

/-- time.Second * 15 in nanoseconds. -/
def fifteenSeconds : Int := 15 * 1000000000

/-- time.Second * 10 in nanoseconds. -/
def tenSeconds : Int := 10 * 1000000000

/-- Modelled from the spec: the storage finalizer token util.SolrStorageFinalizer is
declared outside src/; it is an opaque marker string, so its exact value is irrelevant. -/
def SolrStorageFinalizer : String := "storage.finalizers.solr.bloomberg.com"

/-- Modelled from the spec: the backup-restore volume name util.BackupRestoreVolume is
declared outside src/; it is an opaque volume name. -/
def BackupRestoreVolume : String := "backup-restore"

/-- Modelled from the spec: the primary container name util.SolrNodeContainer is declared
outside src/; the spec calls it the solr container. -/
def SolrNodeContainer : String := "solr"

/-- A persistent volume claim as seen by the storage lifecycle manager: its name and the
ordinal index parsed from the name. -/
structure PVC where
  name : String
  ordinal : Nat
deriving DecidableEq, Repr

/-- Modelled from the spec: util.IsPVCOrphan is declared outside src/.  The spec defines
an orphaned claim as a claim whose ordinal index is greater than or equal to the current
desired replica count. -/
def IsPVCOrphan (pvc : PVC) (replicas : Nat) : Bool :=
  decide (replicas ≤ pvc.ordinal)

/-- The characters after the last colon of a character list, or none when the list has
no colon. -/
def afterLastColon : List Char → Option (List Char)
  | [] => none
  | c :: rest =>
    match afterLastColon rest with
    | some tail => some tail
    | none => if c = ':' then some rest else none

/-- Modelled from the spec: solr.ImageVersion (api package, not under src/) derives the
image version from a container image string; modelled as the tag after the last colon,
or the whole string when no colon is present. -/
def ImageVersion (image : String) : String :=
  match afterLastColon image.data with
  | some tail => String.mk tail
  | none => image

/-- cleanupOrphanPVCs: gated on the stored status having ReadyReplicas equal to Replicas,
list the claims matching the selector (the list result is an input), and when there are
strictly more claims than the desired replica count, delete exactly the orphaned ones.
Returns the deleted claims in order and whether an error is returned (only the list
lookup can fail; per-claim deletion is best effort). -/
def cleanupOrphanPVCs (statusReadyReplicas statusReplicas specReplicas : Nat)
    (pvcList : Except Unit (List PVC)) : List PVC × Bool :=
  if statusReadyReplicas = statusReplicas then
    match pvcList with
    | Except.error _ => ([], true)
    | Except.ok items =>
      if specReplicas < items.length then
        (items.filter (fun p => IsPVCOrphan p specReplicas), false)
      else ([], false)
  else ([], false)

/-- The fields of the SolrCloud object that drive reconcileStorageFinalizer: whether
persistent storage with the Delete volume reclaim policy is configured, whether the
object's deletion timestamp is zero, the metadata finalizer list, the stored status
replica counts and the desired replica count. -/
structure CloudState where
  persistentDelete : Bool
  deletionTimestampIsZero : Bool
  finalizers : List String
  statusReadyReplicas : Nat
  statusReplicas : Nat
  specReplicas : Nat
deriving DecidableEq, Repr

/-- reconcileStorageFinalizer: the finalizer state machine over the SolrCloud object.
updateOk tells whether the (at most one) Update call of the taken branch succeeds;
pvcList is the result of the claim list lookup.  Returns the issued actions in order
and whether an error is returned. -/
def reconcileStorageFinalizer (cloud : CloudState) (pvcList : Except Unit (List PVC))
    (updateOk : Bool) : List Act × Bool :=
  if cloud.persistentDelete then
    if cloud.deletionTimestampIsZero then
      if cloud.finalizers.contains SolrStorageFinalizer then
        let cleaned := cleanupOrphanPVCs cloud.statusReadyReplicas cloud.statusReplicas
          cloud.specReplicas pvcList
        (cleaned.1.map (fun p => Act.deletePVC p.name), cleaned.2)
      else
        if updateOk then
          let cleaned := cleanupOrphanPVCs cloud.statusReadyReplicas cloud.statusReplicas
            cloud.specReplicas pvcList
          ([Act.addFinalizer SolrStorageFinalizer, Act.updateCloud]
            ++ cleaned.1.map (fun p => Act.deletePVC p.name), cleaned.2)
        else ([Act.addFinalizer SolrStorageFinalizer, Act.updateCloud], true)
    else
      if cloud.finalizers.contains SolrStorageFinalizer then
        match pvcList with
        | Except.error _ => ([], true)
        | Except.ok items =>
          (items.map (fun p => Act.deletePVC p.name)
            ++ [Act.removeFinalizer SolrStorageFinalizer, Act.updateCloud], !updateOk)
      else ([], false)
  else
    if cloud.finalizers.contains SolrStorageFinalizer then
      ([Act.removeFinalizer SolrStorageFinalizer, Act.updateCloud], !updateOk)
    else ([], false)

/-- The fragment of Reconcile guarding the storage finalizer: it only runs when the PVC
label selector discovered from the StatefulSet is non-empty, and when the finalizer
reconciliation fails the pass returns a 10 second requeue with a nil error.  Returns the
issued actions and, when the pass returns early, the returned result. -/
def storageFinalizerStep (pvcLabelSelector : List (String × String)) (cloud : CloudState)
    (pvcList : Except Unit (List PVC)) (updateOk : Bool) :
    List Act × Option GoResult :=
  if 0 < pvcLabelSelector.length then
    let r := reconcileStorageFinalizer cloud pvcList updateOk
    if r.2 then (r.1, some ⟨tenSeconds, false⟩) else (r.1, none)
  else ([], none)

/-- The Zookeeper connection descriptor (solr.ZookeeperConnectionInfo). -/
structure ZookeeperConnectionInfo where
  internalConnectionString : String
  externalConnectionString : Option String
  chRoot : String
deriving DecidableEq, Repr

/-- One per-node status entry (solr.SolrNodeStatus); the string fields default to the
empty string as Go zero values. -/
structure SolrNodeStatus where
  name : String
  nodeName : String
  internalAddress : String
  externalAddress : String
  version : String
  ready : Bool
  specUpToDate : Bool
deriving DecidableEq, Repr

/-- The Go zero value of SolrNodeStatus, produced by a map lookup of an absent key. -/
def zeroSolrNodeStatus : SolrNodeStatus :=
  ⟨"", "", "", "", "", false, false⟩

/-- The recomputed status snapshot (solr.SolrCloudStatus). -/
structure SolrCloudStatus where
  solrNodes : List SolrNodeStatus
  replicas : Nat
  readyReplicas : Nat
  upToDateNodes : Nat
  backupRestoreReady : Bool
  version : String
  targetVersion : String
  internalCommonAddress : String
  externalCommonAddress : Option String
  zookeeperConnectionInfo : Option ZookeeperConnectionInfo
  urlSchemeClusterProperty : Bool
deriving DecidableEq, Repr

/-- The Go zero value of SolrCloudStatus, as declared at the start of a pass. -/
def zeroSolrCloudStatus : SolrCloudStatus :=
  ⟨[], 0, 0, 0, false, "", "", "", none, none, false⟩

/-- The fields of the SolrCloud spec read by the status aggregator. -/
structure SolrCloudSpecView where
  replicas : Nat
  solrImageTag : String
  backupRestoreEnabled : Bool
  externalEnabled : Bool
  externalHideNodes : Bool
  externalHideCommon : Bool
deriving DecidableEq, Repr

/-- The fields of the live StatefulSet status read by the pass (appsv1.StatefulSetStatus;
readyReplicas is carried although the aggregator never reads it). -/
structure StatefulSetStatusView where
  replicas : Nat
  readyReplicas : Nat
  updateRevision : String
deriving DecidableEq, Repr

/-- A live pod as read by the status aggregator: name, assigned node, the image of the
first container of the pod spec, the container statuses as pairs of container name and
the optional Started pointer, the pod conditions as pairs of condition type and whether
the condition status is True, the controller-revision-hash label, the volume names and
the unique identity. -/
structure PodInfo where
  name : String
  nodeName : String
  uid : String
  firstContainerImage : String
  containerStatuses : List (String × Option Bool)
  conditions : List (String × Bool)
  revisionHash : String
  volumes : List String
deriving DecidableEq, Repr

/-- Whether kubernetes considers the pod ready: the loop over the pod conditions keeps
the status of the last condition of type Ready, defaulting to false. -/
def podIsReady (p : PodInfo) : Bool :=
  p.conditions.foldl (fun acc c => if c.1 = "Ready" then c.2 else acc) false

/-- Whether the solr container of an unready pod has not yet started: starts true, and
the loop over container statuses keeps, for the last status named like the solr
container, whether its Started pointer is nil or false.  A ready pod counts as
started. -/
def solrContainerNotStarted (p : PodInfo) : Bool :=
  if podIsReady p then false
  else p.containerStatuses.foldl
    (fun acc cs => if cs.1 = SolrNodeContainer then !(cs.2.getD false) else acc) true

/-- The per-pod node status built inside the aggregation loop.  The internal and
external node address helpers (api package, outside src/) are inputs. -/
def podNodeStatus (spec : SolrCloudSpecView) (updateRevision : String)
    (inUrl exUrl : String → String) (p : PodInfo) : SolrNodeStatus :=
  { name := p.name
    nodeName := p.nodeName
    internalAddress := "http://" ++ inUrl p.name
    externalAddress :=
      if spec.externalEnabled = true ∧ spec.externalHideNodes = false
      then "http://" ++ exUrl p.name else ""
    version :=
      if 0 < p.containerStatuses.length then ImageVersion p.firstContainerImage else ""
    ready := podIsReady p
    specUpToDate := p.revisionHash == updateRevision }

/-- The accumulators of the aggregation loop of reconcileCloudStatus, one field per
local variable of the source loop. -/
structure PodScanAcc where
  otherVersions : List String
  nodeStatuses : List SolrNodeStatus
  backupRestoreReadyPods : Nat
  readyReplicas : Nat
  upToDateNodes : Nat
  availableUpdatedPodCount : Nat
  outOfDatePods : List PodInfo
  outOfDatePodsNotStarted : List PodInfo
deriving Repr

/-- The aggregation loop of reconcileCloudStatus over the listed pods, in list order.
Every accumulator is append-or-increment only, so the loop is written as structural
recursion with the head contribution prepended. -/
def scanPods (spec : SolrCloudSpecView) (updateRevision : String)
    (inUrl exUrl : String → String) : List PodInfo → PodScanAcc
  | [] => ⟨[], [], 0, 0, 0, 0, [], []⟩
  | p :: rest =>
    let acc := scanPods spec updateRevision inUrl exUrl rest
    let ns := podNodeStatus spec updateRevision inUrl exUrl p
    { otherVersions :=
        (if 0 < p.containerStatuses.length ∧ ns.version ≠ spec.solrImageTag
         then [ns.version] else []) ++ acc.otherVersions
      nodeStatuses := ns :: acc.nodeStatuses
      backupRestoreReadyPods :=
        (if spec.backupRestoreEnabled
         then (p.volumes.filter (fun v => v == BackupRestoreVolume)).length else 0)
          + acc.backupRestoreReadyPods
      readyReplicas := (if ns.ready then 1 else 0) + acc.readyReplicas
      upToDateNodes := (if ns.specUpToDate then 1 else 0) + acc.upToDateNodes
      availableUpdatedPodCount :=
        (if ns.specUpToDate = true ∧ ns.ready = true then 1 else 0)
          + acc.availableUpdatedPodCount
      outOfDatePods :=
        (if ns.specUpToDate = false ∧ solrContainerNotStarted p = false
         then [p] else []) ++ acc.outOfDatePods
      outOfDatePodsNotStarted :=
        (if ns.specUpToDate = false ∧ solrContainerNotStarted p = true
         then [p] else []) ++ acc.outOfDatePodsNotStarted }

/-- Lexicographic order on character lists by code point; for UTF-8 encoded strings
this agrees with the byte order used by sort.Strings. -/
def charListLe : List Char → List Char → Bool
  | [], _ => true
  | _ :: _, [] => false
  | a :: as, b :: bs =>
    if a = b then charListLe as bs else decide (a.toNat < b.toNat)

/-- Ascending string comparison for the node-name sort. -/
def strLe (a b : String) : Bool := charListLe a.data b.data

/-- Insert a string into an ascending list, keeping it ascending. -/
def insertSorted (s : String) : List String → List String
  | [] => [s]
  | x :: xs => if strLe s x then s :: x :: xs else x :: insertSorted s xs

/-- Ascending sort of the node names, modelling sort.Strings. -/
def sortStrings (l : List String) : List String :=
  l.foldr insertSorted []

/-- Lookup in the name-keyed node status map: insertion order is pod order and a later
insertion with the same key overwrites, so the last match wins; an absent key yields
the zero value. -/
def nodeStatusFor (statuses : List SolrNodeStatus) (n : String) : SolrNodeStatus :=
  statuses.foldl (fun acc ns => if ns.name = n then ns else acc) zeroSolrNodeStatus

/-- reconcileCloudStatus: aggregate the listed pods and the live StatefulSet status into
the status snapshot, and return the out-of-date pod partition and the available
up-to-date pod count for the rolling update coordinator.  The common address helpers
(api package, outside src/) are inputs, and newStatus is the snapshot accumulated so far
in the pass. -/
def reconcileCloudStatus (spec : SolrCloudSpecView) (stsStatus : StatefulSetStatusView)
    (inUrl exUrl : String → String) (internalCommonUrl externalCommonUrl : String)
    (pods : List PodInfo) (newStatus : SolrCloudStatus) :
    SolrCloudStatus × List PodInfo × List PodInfo × Nat :=
  let acc := scanPods spec stsStatus.updateRevision inUrl exUrl pods
  let sortedNames := sortStrings (pods.map (fun p => p.name))
  let solrNodes := sortedNames.map (fun n => nodeStatusFor acc.nodeStatuses n)
  let versions : String × String :=
    match acc.otherVersions with
    | [] => ("", spec.solrImageTag)
    | v :: _ => (spec.solrImageTag, v)
  let st :=
    { newStatus with
      replicas := stsStatus.replicas
      readyReplicas := acc.readyReplicas
      upToDateNodes := acc.upToDateNodes
      solrNodes := solrNodes
      backupRestoreReady :=
        if acc.backupRestoreReadyPods = spec.replicas ∧ 0 < acc.backupRestoreReadyPods
        then true else newStatus.backupRestoreReady
      targetVersion := versions.1
      version := versions.2
      internalCommonAddress := "http://" ++ internalCommonUrl
      externalCommonAddress :=
        if spec.externalEnabled = true ∧ spec.externalHideCommon = false
        then some ("http://" ++ externalCommonUrl) else newStatus.externalCommonAddress }
  (st, acc.outOfDatePods, acc.outOfDatePodsNotStarted, acc.availableUpdatedPodCount)

/-- The error variable left by the pod deletion loop of the managed update: each
iteration overwrites it with the outcome of its own Delete call, so only the outcome of
the last attempted deletion survives; nil when no deletion was attempted. -/
def lastDeleteErr (pods : List PodInfo) (deleteOk : String → Bool) : Bool :=
  pods.foldl (fun _ p => !(deleteOk p.name)) false

/-- The managed update fragment of Reconcile: when the update strategy is managed and
some pod is out of date, delete every not-yet-started out-of-date pod plus the pods
chosen by the external safety policy (its output, additionalPodsToUpdate and retryLater,
is an input), each deletion preconditioned on the pod's unique identity; then, when the
error variable of the loop is non-nil or the policy requested a later retry, bound the
requeue delay by 15 seconds unless a positive delay of at most 15 seconds is already
pending.  Returns the issued actions and the requeue delay after the step. -/
def managedUpdateStep (methodManaged : Bool)
    (outOfDatePods outOfDatePodsNotStarted additionalPodsToUpdate : List PodInfo)
    (retryLater : Bool) (deleteOk : String → Bool) (requeueAfter : Int) :
    List Act × Int :=
  if methodManaged = true ∧ 0 < outOfDatePods.length + outOfDatePodsNotStarted.length then
    let podsToUpdate := outOfDatePodsNotStarted ++ additionalPodsToUpdate
    let trace := podsToUpdate.map (fun p => Act.deletePod p.name p.uid)
    let newRequeue :=
      if lastDeleteErr podsToUpdate deleteOk = true ∨ retryLater = true then
        if requeueAfter ≤ 0 ∨ fifteenSeconds < requeueAfter then fifteenSeconds
        else requeueAfter
      else requeueAfter
    (trace, newRequeue)
  else ([], requeueAfter)

/-- afterCertificateReady: once the certificate object exists and its backing secret was
found, compare the freshly generated certificate with the live one (the field
copy-and-diff helper is the input fieldsChanged).  On drift, delete the backing secret,
then update the certificate, and report not ready; otherwise, when the secret has no
owner reference yet, set one (in memory, setRefOk) and persist the secret, then report
ready.  Returns the issued actions, the ready flag and whether an error is returned. -/
def afterCertificateReady (fieldsChanged secretHasOwnerRef : Bool)
    (secretName certName : String)
    (setRefOk deleteSecretOk updateCertOk updateSecretOk : Bool) :
    List Act × Bool × Bool :=
  if fieldsChanged then
    if deleteSecretOk = false then ([Act.deleteSecret secretName], false, true)
    else if updateCertOk = false then
      ([Act.deleteSecret secretName, Act.updateCertificate certName], false, true)
    else ([Act.deleteSecret secretName, Act.updateCertificate certName], false, false)
  else
    if secretHasOwnerRef = false then
      if setRefOk = false then ([], false, true)
      else if updateSecretOk = false then ([Act.updateSecret secretName], false, true)
      else ([Act.updateSecret secretName], true, false)
    else ([], true, false)

/-- The user-supplied managed-ensemble request (solr.ProvidedZookeeper): the desired
ensemble replica count and the chroot suffix. -/
structure ProvidedZk where
  replicas : Nat
  chRoot : String
deriving DecidableEq, Repr

/-- The fields of a live ZookeeperCluster read by reconcileZk. -/
structure FoundZkCluster where
  name : String
  ns : String
  clientPort : Nat
  externalClientEndpoint : String
deriving DecidableEq, Repr

/-- The outcome of an orchestration-API lookup. -/
inductive GetResult (α : Type) where
  | found (a : α)
  | notFound
  | apiError
deriving DecidableEq, Repr

/-- The error classes reconcileZk can return: a bad-request (client) error for a
configuration problem, or a transient infrastructure error from an API call. -/
inductive ZkError where
  | badRequest (msg : String)
  | infra
deriving DecidableEq, Repr

/-- Message of the bad-request error when the managed-ensemble capability is off. -/
def zkBadRequestNoCRD : String :=
  "Cannot create a Zookeeper Cluster, as the Solr Operator is not configured to use the Zookeeper CRD"

/-- Message of the bad-request error when no ensemble reference is given at all. -/
def zkBadRequestNoRef : String := "No Zookeeper reference information provided."

/-- The comma-joined per-replica internal connection string synthesized by reconcileZk:
the replica count comes from the generated cluster spec, the host parts from the found
cluster. -/
def zkInternalConnectionString (generatedReplicas : Nat) (f : FoundZkCluster) : String :=
  String.intercalate ","
    ((List.range generatedReplicas).map (fun i =>
      f.name ++ "-" ++ toString i ++ "." ++ f.name ++ "-headless." ++ f.ns
        ++ ":" ++ toString f.clientPort))

/-- reconcileZk: resolve the coordination ensemble.  An external connection descriptor
is copied verbatim into the new status; a managed ensemble requires the process-level
CRD capability and is created when absent or synced and summarized into a connection
descriptor when found; with neither reference the pass fails with a bad request.
Returns the issued actions, the descriptor stored into the new status (none when the
field is left as its zero value) and the returned error. -/
def reconcileZk (connectionInfo : Option ZookeeperConnectionInfo)
    (providedZk : Option ProvidedZk) (crdEnabled : Bool) (setRefOk : Bool)
    (getZk : GetResult FoundZkCluster) (copyChanged : Bool) (createOk updateOk : Bool) :
    List Act × Option ZookeeperConnectionInfo × Option ZkError :=
  match connectionInfo with
  | some ci => ([], some ci, none)
  | none =>
    match providedZk with
    | some pzk =>
      if crdEnabled = false then ([], none, some (ZkError.badRequest zkBadRequestNoCRD))
      else if setRefOk = false then ([], none, some ZkError.infra)
      else
        match getZk with
        | GetResult.notFound =>
          ([Act.createZkCluster], none, if createOk then none else some ZkError.infra)
        | GetResult.apiError => ([], none, some ZkError.infra)
        | GetResult.found f =>
          let upd : List Act × Option ZkError :=
            if copyChanged then
              ([Act.updateZkCluster], if updateOk then none else some ZkError.infra)
            else ([], none)
          let external :=
            if f.externalClientEndpoint = "" then none else some f.externalClientEndpoint
          (upd.1,
           some ⟨zkInternalConnectionString pzk.replicas f, external, pzk.chRoot⟩,
           upd.2)
    | none => ([], none, some (ZkError.badRequest zkBadRequestNoRef))

/-- The final status write-back of Reconcile: the newly computed status is written to
the status subresource only when it differs from the stored one by deep structural
comparison.  Returns the issued actions and whether an error is returned. -/
def statusWriteBackStep (oldStatus newStatus : SolrCloudStatus) (updateOk : Bool) :
    List Act × Bool :=
  if oldStatus = newStatus then ([], false)
  else ([Act.updateStatus], !updateOk)

/-- Characterization used by the statements about version skew: the image-derived
versions differing from the desired tag, among pods with a non-empty container status
list, in pod list order. -/
def listOrderOtherVersions (tag : String) (pods : List PodInfo) : List String :=
  (pods.filter (fun p =>
    decide (0 < p.containerStatuses.length) && !(ImageVersion p.firstContainerImage == tag))).map
    (fun p => ImageVersion p.firstContainerImage)

/-- Insert a pod into a list ascending by name, keeping it ascending by name. -/
def insertPodSorted (p : PodInfo) : List PodInfo → List PodInfo
  | [] => [p]
  | q :: qs => if strLe p.name q.name then p :: q :: qs else q :: insertPodSorted p qs

/-- Sort pods ascending by name. -/
def sortPodsByName (l : List PodInfo) : List PodInfo :=
  l.foldr insertPodSorted []

/-- Spec-side definition, written from the spec's words for comparison with the code:
the first non-matching image-derived version observed by pod-name sort order. -/
def specFirstOtherVersion (tag : String) (pods : List PodInfo) : Option String :=
  (listOrderOtherVersions tag (sortPodsByName pods)).head?

/-- C1 counterexample: with desired replica count 3, ready replicas equal to total
replicas (3 = 3) and matching claims with ordinals 0 and 5, the claim with ordinal
5 is orphaned (5 is at least 3) yet nothing is deleted, because the code additionally
requires strictly more claims than replicas; the claim as stated says it is deleted. -/
theorem c1_counterexample :
    IsPVCOrphan ⟨"data-solrcloud-5", 5⟩ 3 = true ∧
    (⟨"data-solrcloud-5", 5⟩ : PVC) ∈
      [(⟨"data-solrcloud-0", 0⟩ : PVC), ⟨"data-solrcloud-5", 5⟩] ∧
    (cleanupOrphanPVCs 3 3 3
      (Except.ok [⟨"data-solrcloud-0", 0⟩, ⟨"data-solrcloud-5", 5⟩])).1 = [] := by
  decide

/-- C1 (amended): on a successful claim listing, the orphan cleanup deletes a claim iff
the stored ready-replica count equals the stored replica count, the number of matching
claims strictly exceeds the desired replica count, and the claim's ordinal index is at
least the desired replica count; in particular no claim is deleted unless ready replicas
equal total replicas. -/
theorem c1_orphan_cleanup_amended (sr s r : Nat) (pvcs : List PVC) (pvc : PVC) :
    pvc ∈ (cleanupOrphanPVCs sr s r (Except.ok pvcs)).1 ↔
      sr = s ∧ r < pvcs.length ∧ pvc ∈ pvcs ∧ IsPVCOrphan pvc r = true := by
  unfold cleanupOrphanPVCs
  by_cases h1 : sr = s
  · by_cases h2 : r < pvcs.length
    · simp [h1, h2, List.mem_filter]
    · simp [h1, h2]
  · simp [h1]

/-- C9: in a pass where no PVC label selector was discovered, the storage finalizer step
issues no action at all (no claim deletion, no finalizer addition or removal) and does
not end the pass early. -/
theorem c9_empty_selector_skips_storage (cloud : CloudState)
    (pvcList : Except Unit (List PVC)) (updateOk : Bool) :
    storageFinalizerStep [] cloud pvcList updateOk = ([], none) := by
  simp [storageFinalizerStep]

/-- C10: whenever the storage finalizer reconciliation returns an error and the step
runs (the selector is non-empty), the pass returns early with a 10 second requeue delay
and a nil error, so the failure never reaches the caller's error-backoff path. -/
theorem c10_finalizer_error_swallowed (kv : String × String)
    (rest : List (String × String)) (cloud : CloudState)
    (pvcList : Except Unit (List PVC)) (updateOk : Bool)
    (herr : (reconcileStorageFinalizer cloud pvcList updateOk).2 = true) :
    storageFinalizerStep (kv :: rest) cloud pvcList updateOk =
      ((reconcileStorageFinalizer cloud pvcList updateOk).1,
        some ⟨tenSeconds, false⟩) := by
  simp [storageFinalizerStep, herr]

/-- C10 witness: a concrete pass (persistent Delete storage, not being deleted,
finalizer absent, failing update call) where the finalizer reconciliation errors and the
step returns the 10 second requeue with a nil error. -/
theorem c10_witness :
    storageFinalizerStep [("technology", "solr-cloud")]
        ⟨true, true, [], 0, 0, 0⟩ (Except.ok []) false =
      ((reconcileStorageFinalizer ⟨true, true, [], 0, 0, 0⟩ (Except.ok []) false).1,
        some ⟨tenSeconds, false⟩) :=
  c10_finalizer_error_swallowed ("technology", "solr-cloud") [] ⟨true, true, [], 0, 0, 0⟩
    (Except.ok []) false (by decide)

/-- C3: under the managed update strategy, when out-of-date pods exist, a pod deletion
with a given name and unique identity is issued iff a pod with that name and identity is
among the not-yet-started out-of-date pods (always deleted, regardless of the safety
policy output) or among the pods chosen by the external safety policy; every issued
deletion is preconditioned on the matching pod's own identity. -/
theorem c3_managed_update_selection (ood oodns add : List PodInfo) (retry : Bool)
    (dOk : String → Bool) (d : Int) (n u : String)
    (hgate : 0 < ood.length + oodns.length) :
    Act.deletePod n u ∈ (managedUpdateStep true ood oodns add retry dOk d).1 ↔
      ∃ p, p ∈ oodns ++ add ∧ p.name = n ∧ p.uid = u := by
  have ht : (managedUpdateStep true ood oodns add retry dOk d).1 =
      (oodns ++ add).map (fun p => Act.deletePod p.name p.uid) := by
    simp [managedUpdateStep, hgate]
  rw [ht, List.mem_map]
  constructor
  · rintro ⟨p, hp, he⟩
    rw [Act.deletePod.injEq] at he
    exact ⟨p, hp, he.1, he.2⟩
  · rintro ⟨p, hp, h1, h2⟩
    exact ⟨p, hp, by rw [h1, h2]⟩

/-- C3 witness: a concrete not-yet-started out-of-date pod is deleted with a
precondition on its own identity. -/
theorem c3_witness :
    Act.deletePod "pod-0" "uid-0" ∈
      (managedUpdateStep true []
        [⟨"pod-0", "node-a", "uid-0", "solr:8.2.0", [], [], "rev1", []⟩]
        [] false (fun _ => true) 0).1 :=
  (c3_managed_update_selection []
    [⟨"pod-0", "node-a", "uid-0", "solr:8.2.0", [], [], "rev1", []⟩]
    [] false (fun _ => true) 0 "pod-0" "uid-0" (by decide)).mpr
    ⟨⟨"pod-0", "node-a", "uid-0", "solr:8.2.0", [], [], "rev1", []⟩,
      by decide, rfl, rfl⟩

/-- C7 counterexample: two not-yet-started out-of-date pods; deleting the first fails
and deleting the second succeeds, no retry is requested and no requeue is pending.  A
pod deletion failed, yet the requeue delay after the step is still 0 (no requeue
scheduled at all), because the loop variable only keeps the outcome of the last
deletion. -/
theorem c7_counterexample :
    ((fun nm => nm == "pod-b") "pod-a" = false) ∧
    (managedUpdateStep true []
      [⟨"pod-a", "n1", "ua", "solr:8.2.0", [], [], "rev1", []⟩,
       ⟨"pod-b", "n2", "ub", "solr:8.2.0", [], [], "rev1", []⟩]
      [] false (fun nm => nm == "pod-b") 0).2 = 0 := by
  decide

/-- C7 (amended): during a managed update with out-of-date pods, if the last attempted
pod deletion fails or the safety policy requests a later retry, the requeue delay after
the step is positive and at most 15 seconds; and an already-pending positive delay of at
most 15 seconds is never changed by this step. -/
theorem c7_requeue_bound_amended (ood oodns add : List PodInfo) (retry : Bool)
    (dOk : String → Bool) (d : Int)
    (hgate : 0 < ood.length + oodns.length)
    (hfire : lastDeleteErr (oodns ++ add) dOk = true ∨ retry = true) :
    (0 < (managedUpdateStep true ood oodns add retry dOk d).2 ∧
      (managedUpdateStep true ood oodns add retry dOk d).2 ≤ fifteenSeconds) ∧
    (0 < d → d ≤ fifteenSeconds →
      (managedUpdateStep true ood oodns add retry dOk d).2 = d) := by
  have h2 : (managedUpdateStep true ood oodns add retry dOk d).2 =
      if d ≤ 0 ∨ fifteenSeconds < d then fifteenSeconds else d := by
    simp [managedUpdateStep, hgate, hfire]
  rw [h2]
  constructor
  · by_cases hd : d ≤ 0 ∨ fifteenSeconds < d
    · rw [if_pos hd]
      exact ⟨by decide, le_refl _⟩
    · rw [if_neg hd]
      push_neg at hd
      exact hd
  · intro hd1 hd2
    rw [if_neg]
    push_neg
    exact ⟨hd1, hd2⟩

/-- C7 witness: one out-of-date started pod chosen by the policy, its deletion (the
last one attempted) fails, no delay pending: the delay becomes exactly the 15 second
bound, which is positive and at most 15 seconds. -/
theorem c7_witness :
    0 < (managedUpdateStep true
        [⟨"pod-a", "n1", "ua", "solr:8.2.0", [], [], "rev1", []⟩] []
        [⟨"pod-a", "n1", "ua", "solr:8.2.0", [], [], "rev1", []⟩]
        false (fun _ => false) 0).2 ∧
      (managedUpdateStep true
        [⟨"pod-a", "n1", "ua", "solr:8.2.0", [], [], "rev1", []⟩] []
        [⟨"pod-a", "n1", "ua", "solr:8.2.0", [], [], "rev1", []⟩]
        false (fun _ => false) 0).2 ≤ fifteenSeconds :=
  (c7_requeue_bound_amended
    [⟨"pod-a", "n1", "ua", "solr:8.2.0", [], [], "rev1", []⟩] []
    [⟨"pod-a", "n1", "ua", "solr:8.2.0", [], [], "rev1", []⟩]
    false (fun _ => false) 0 (by decide) (Or.inl (by decide))).1

/-- C2: whenever the live certificate's create-time fields differ from the freshly
generated one, the first issued action is the deletion of the backing secret, the step
reports not ready, and the certificate update is issued exactly when the deletion
succeeded, hence always strictly after it; when no drift is detected no certificate
update is ever issued. -/
theorem c2_cert_drift_order (shr sro dso uco uso : Bool) (s c : String) :
    ((afterCertificateReady true shr s c sro dso uco uso).1.head? =
        some (Act.deleteSecret s)) ∧
    ((afterCertificateReady true shr s c sro dso uco uso).2.1 = false) ∧
    ((afterCertificateReady true shr s c sro dso uco uso).1 =
        if dso then [Act.deleteSecret s, Act.updateCertificate c]
        else [Act.deleteSecret s]) ∧
    ((afterCertificateReady false shr s c sro dso uco uso).1 =
        if shr then [] else if sro then [Act.updateSecret s] else []) := by
  cases dso <;> cases uco <;> cases shr <;> cases sro <;> cases uso <;>
    simp [afterCertificateReady]

/-- C6: the status write-back issues the status update iff the newly computed status
differs from the stored one by full structural comparison; on two structurally equal
statuses nothing is written and no error is returned. -/
theorem c6_status_writeback_iff (o n : SolrCloudStatus) (ok : Bool) :
    (Act.updateStatus ∈ (statusWriteBackStep o n ok).1 ↔ o ≠ n) ∧
    statusWriteBackStep o o ok = ([], false) := by
  constructor
  · by_cases h : o = n <;> simp [statusWriteBackStep, h]
  · simp [statusWriteBackStep]

/-- Whether an error returned by reconcileZk is of the bad-request (client) class. -/
def isBadRequest : Option ZkError → Bool
  | some (ZkError.badRequest _) => true
  | _ => false

/-- C8: the ensemble resolver returns a bad-request error and issues no action in
exactly the two configuration-error cases: no reference at all, and a managed ensemble
requested while the CRD capability is disabled; with an external descriptor the
descriptor is copied verbatim into the new status with no action and no error; and with
a managed ensemble and the capability enabled the result is never a bad request. -/
theorem c8_zk_resolver (ci : ZookeeperConnectionInfo) (pzkAny : Option ProvidedZk)
    (pzk : ProvidedZk) (crd setRefOk : Bool) (g : GetResult FoundZkCluster)
    (copyChanged createOk updateOk : Bool) :
    (reconcileZk none none crd setRefOk g copyChanged createOk updateOk =
      ([], none, some (ZkError.badRequest zkBadRequestNoRef))) ∧
    (reconcileZk none (some pzk) false setRefOk g copyChanged createOk updateOk =
      ([], none, some (ZkError.badRequest zkBadRequestNoCRD))) ∧
    (reconcileZk (some ci) pzkAny crd setRefOk g copyChanged createOk updateOk =
      ([], some ci, none)) ∧
    (isBadRequest
      (reconcileZk none (some pzk) true setRefOk g copyChanged createOk
        updateOk).2.2 = false) := by
  refine ⟨rfl, rfl, rfl, ?_⟩
  cases setRefOk
  · rfl
  · cases g <;> cases copyChanged <;> cases createOk <;> cases updateOk <;>
      simp [reconcileZk, isBadRequest]

/-- The aggregation loop counts ready replicas by counting the listed pods whose Ready
condition is true. -/
theorem scanPods_readyReplicas (spec : SolrCloudSpecView) (rev : String)
    (iu eu : String → String) (pods : List PodInfo) :
    (scanPods spec rev iu eu pods).readyReplicas =
      (pods.filter podIsReady).length := by
  induction pods with
  | nil => rfl
  | cons p rest ih =>
    by_cases h : podIsReady p = true
    · simp [scanPods, podNodeStatus, h, ih, List.filter_cons]
      omega
    · simp [scanPods, podNodeStatus, h, ih, List.filter_cons]

/-- The aggregation loop collects the non-matching versions in pod list order. -/
theorem scanPods_otherVersions (spec : SolrCloudSpecView) (rev : String)
    (iu eu : String → String) (pods : List PodInfo) :
    (scanPods spec rev iu eu pods).otherVersions =
      listOrderOtherVersions spec.solrImageTag pods := by
  induction pods with
  | nil => rfl
  | cons p rest ih =>
    by_cases hl : 0 < p.containerStatuses.length
    · by_cases hv : ImageVersion p.firstContainerImage = spec.solrImageTag
      · simp [scanPods, podNodeStatus, listOrderOtherVersions, List.filter_cons,
          hl, hv, ih]
      · simp [scanPods, podNodeStatus, listOrderOtherVersions, List.filter_cons,
          hl, hv, ih]
    · simp [scanPods, podNodeStatus, listOrderOtherVersions, List.filter_cons, hl, ih]

/-- C4 counterexample: the live StatefulSet status reports 2 ready replicas, but the
single listed pod has a false Ready condition, and the computed status reports 0 ready
replicas: the ready-replica count is recomputed from the observed pods, not taken from
the StatefulSet status as the claim states (while the replica count is). -/
theorem c4_counterexample :
    ((reconcileCloudStatus ⟨1, "8.2.0", false, false, false, false⟩ ⟨2, 2, "rev1"⟩
        (fun _ => "") (fun _ => "") "" ""
        [⟨"pod-0", "n1", "u0", "solr:8.2.0", [("solr", some true)],
          [("Ready", false)], "rev1", []⟩]
        zeroSolrCloudStatus).1.readyReplicas = 0) ∧
    ((⟨2, 2, "rev1"⟩ : StatefulSetStatusView).readyReplicas = 2) := by
  decide

/-- C4 (amended): the aggregated replica count is taken from the live StatefulSet
status, while the ready-replica count is recomputed by counting the observed pods whose
Ready condition is true. -/
theorem c4_replica_counts_amended (spec : SolrCloudSpecView)
    (sts : StatefulSetStatusView) (iu eu : String → String) (icu ecu : String)
    (pods : List PodInfo) (ns0 : SolrCloudStatus) :
    ((reconcileCloudStatus spec sts iu eu icu ecu pods ns0).1.replicas =
      sts.replicas) ∧
    ((reconcileCloudStatus spec sts iu eu icu ecu pods ns0).1.readyReplicas =
      (pods.filter podIsReady).length) := by
  cases hov : (scanPods spec sts.updateRevision iu eu pods).otherVersions with
  | nil =>
    constructor <;> simp [reconcileCloudStatus, hov, scanPods_readyReplicas]
  | cons v vs =>
    constructor <;> simp [reconcileCloudStatus, hov, scanPods_readyReplicas]

/-- C5 counterexample: desired tag v1; the pod list holds pod-b running v2 before pod-a
running v3.  The computed running version is v2, the first non-matching version in pod
list order, whereas the first non-matching version in pod-name sort order (the claim's
choice) is v3. -/
theorem c5_counterexample :
    ((reconcileCloudStatus ⟨2, "v1", false, false, false, false⟩ ⟨2, 2, "rev1"⟩
        (fun _ => "") (fun _ => "") "" ""
        [⟨"pod-b", "n1", "ub", "solr:v2", [("solr", some true)],
          [("Ready", true)], "rev1", []⟩,
         ⟨"pod-a", "n2", "ua", "solr:v3", [("solr", some true)],
          [("Ready", true)], "rev1", []⟩]
        zeroSolrCloudStatus).1.version = "v2") ∧
    (specFirstOtherVersion "v1"
      [⟨"pod-b", "n1", "ub", "solr:v2", [("solr", some true)],
        [("Ready", true)], "rev1", []⟩,
       ⟨"pod-a", "n2", "ua", "solr:v3", [("solr", some true)],
        [("Ready", true)], "rev1", []⟩] = some "v3") ∧
    ("v2" : String) ≠ "v3" := by
  decide

/-- C5 (amended): when some observed running pod's image-derived version differs from
the desired tag, the status exposes the desired tag as target version and the first
non-matching version in pod list order (not pod-name sort order) as running version;
when none differs the target version is cleared and the running version is the desired
tag. -/
theorem c5_version_skew_amended (spec : SolrCloudSpecView)
    (sts : StatefulSetStatusView) (iu eu : String → String) (icu ecu : String)
    (pods : List PodInfo) (ns0 : SolrCloudStatus) :
    ((reconcileCloudStatus spec sts iu eu icu ecu pods ns0).1.version =
      (listOrderOtherVersions spec.solrImageTag pods).headD spec.solrImageTag) ∧
    ((reconcileCloudStatus spec sts iu eu icu ecu pods ns0).1.targetVersion =
      if listOrderOtherVersions spec.solrImageTag pods = [] then ""
      else spec.solrImageTag) := by
  have h := scanPods_otherVersions spec sts.updateRevision iu eu pods
  cases hov : listOrderOtherVersions spec.solrImageTag pods with
  | nil =>
    rw [hov] at h
    constructor <;> simp [reconcileCloudStatus, h, hov]
  | cons v vs =>
    rw [hov] at h
    constructor <;> simp [reconcileCloudStatus, h, hov]
